import Mathlib

/-!
Verification of the freeciv source excerpt.

Shallow embedding of:
* `client/gui-gtk-2.0/chatline.c` (chat input handler, scroll logic,
  output-window appending),
* the specenum tables for `common/fc_types.h` and `common/terrain.h`,
* `ai/tex/Makefile.am`,
* `data/nation/mongol.ruleset`.
-/

namespace Freeciv

/-! ## chatline.c: input-line handler -/

/-- Modelled from the spec: `MAX_CHATLINE_HISTORY` is declared in
`client/gui-gtk-2.0/chatline.h`, which is not part of the excerpt.  The spec
describes the handler as capping the history length with a fixed positive
constant; freeciv sets it to 20. -/
def MAX_CHATLINE_HISTORY : Nat := 20

/-- State touched by `inputline_return`: the GTK entry text, the `genlist`
`history_list` (modelled as a Lean list, front = most recently prepended),
the global `history_pos`, and the trace of strings passed to `send_chat`. -/
structure ChatState where
  entryText : String
  history : List String
  historyPos : Int
  sent : List String
deriving DecidableEq

/-- Embedding of `inputline_return` from `chatline.c`.  If the entry text is
nonempty it is sent via `send_chat`; when `genlist_size(history_list) >=
MAX_CHATLINE_HISTORY` the tail entry (`genlist_get(history_list, -1)`) is
unlinked and freed, then the input is prepended and `history_pos` is set to
`-1`.  In all cases the entry text is finally cleared. -/
def inputline_return (s : ChatState) : ChatState :=
  let s1 :=
    if s.entryText = "" then s
    else
      { s with
          sent := s.sent ++ [s.entryText],
          history := s.entryText ::
            (if MAX_CHATLINE_HISTORY ≤ s.history.length then
               s.history.dropLast
             else s.history),
          historyPos := -1 }
  { s1 with entryText := "" }

/-! ## chatline.c: scrolling -/

/-- Model of a `GtkAdjustment`: the three properties read by
`scroll_if_necessary`.  The C type is `gdouble`; it is modelled by `ℚ`,
which carries the same exact ordered-field comparisons the code relies on. -/
structure Adjustment where
  value : ℚ
  upper : ℚ
  page_size : ℚ

/-- Model of the parent widget of the text view: either a
`GtkScrolledWindow` carrying its vertical adjustment, or some other
widget class. -/
inductive Widget
  | scrolledWindow (vadj : Adjustment)
  | other

/-- Model of a `GtkTextView`: all `scroll_if_necessary` reads from it is its
parent widget (`gtk_widget_get_parent`), possibly NULL. -/
structure TextView where
  parent : Option Widget

/-- Model of a `GtkTextMark`; no data of the mark is inspected. -/
def Mark : Type := Unit

/-- Embedding of `scroll_if_necessary` from `chatline.c`.  Returns `true`
exactly when `gtk_text_view_scroll_to_mark` is called: the guards
`g_return_if_fail` drop NULL arguments, a NULL or non-scrolled-window
parent is dropped, and otherwise with `max = upper - page_size` the view
scrolls iff `max - val < 10.0`. -/
def scroll_if_necessary (textview : Option TextView)
    (scroll_target : Option Mark) : Bool :=
  match textview with
  | none => false
  | some tv =>
    match scroll_target with
    | none => false
    | some _ =>
      match tv.parent with
      | none => false
      | some Widget.other => false
      | some (Widget.scrolledWindow vadj) =>
        let val := vadj.value
        let mx := vadj.upper - vadj.page_size
        decide (mx - val < 10)

/-- Tags for the scroll actions issued by `chatline_scroll_to_bottom`. -/
inductive ScrollAction
  | scrollMain
  | scrollStart
deriving DecidableEq

/-- Embedding of `chatline_scroll_to_bottom` from `chatline.c`: with a NULL
`message_buffer` it returns at once; otherwise it scrolls whichever of
`main_message_area` and `start_message_area` are non-NULL to the end
iterator. -/
def chatline_scroll_to_bottom (message_buffer : Option Unit)
    (main_message_area start_message_area : Option TextView) :
    List ScrollAction :=
  match message_buffer with
  | none => []
  | some _ =>
    (match main_message_area with
     | some _ => [ScrollAction.scrollMain]
     | none => []) ++
    (match start_message_area with
     | some _ => [ScrollAction.scrollStart]
     | none => [])

/-! ## chatline.c: appending to the output window -/

/-- Zero-padded two-digit decimal rendering, as `strftime` produces for
`%H`, `%M` and `%S`. -/
def two_digit (n : Nat) : String :=
  if n < 10 then "0" ++ toString n else toString n

/-- Model of `strftime(timebuf, sizeof(timebuf), "[%H:%M:%S] ", now_tm)`:
the fixed pattern applied to the wall-clock hour, minute and second. -/
def format_timestamp (h m s : Nat) : String :=
  "[" ++ two_digit h ++ ":" ++ two_digit m ++ ":" ++ two_digit s ++ "] "

/-- Embedding of the text-buffer effect of `real_append_output_window` from
`chatline.c`: the buffer is modelled as the string of its contents.  The
function inserts at the end iterator a newline, then (when
`show_chat_message_time` is set) the strftime-formatted `timebuf`, then
`astring`; each `gtk_text_buffer_insert` revalidates the iterator to the
end of the inserted text, so the three inserts concatenate in order. -/
def real_append_output_window (buf astring : String)
    (show_chat_message_time : Bool) (timebuf : String) : String :=
  let buf1 := buf ++ "\n"
  let buf2 := if show_chat_message_time then buf1 ++ timebuf else buf1
  buf2 ++ astring

/-! ## specenum tables -/

/-- One row of a specenum `values` block: the identifier and the optional
quoted name (absent for the `USER_*` placeholders of `name-override`
enums). -/
structure SpecenumValue where
  identifier : String
  name : Option String
deriving DecidableEq

/-- The `values` block of `enum impr_flag_id` from the specenum definitions
for `common/fc_types.h`. -/
def impr_flag_id_values : List SpecenumValue :=
  [⟨"VISIBLE_BY_OTHERS", some "VisibleByOthers"⟩,
   ⟨"SAVE_SMALL_WONDER", some "SaveSmallWonder"⟩,
   ⟨"GOLD", some "Gold"⟩,
   ⟨"DISASTER_PROOF", some "DisasterProof"⟩,
   ⟨"INDESTRUCTIBLE", some "Indestructible"⟩,
   ⟨"USER_FLAG_1", none⟩,
   ⟨"USER_FLAG_2", none⟩,
   ⟨"USER_FLAG_3", none⟩,
   ⟨"USER_FLAG_4", none⟩,
   ⟨"USER_FLAG_5", none⟩,
   ⟨"USER_FLAG_6", none⟩,
   ⟨"USER_FLAG_7", none⟩,
   ⟨"USER_FLAG_8", none⟩]

/-- The `values` block of `enum terrain_class` from the specenum definitions
for `common/terrain.h` (style identifiers sorted). -/
def terrain_class_values : List SpecenumValue :=
  [⟨"LAND", some "Land"⟩,
   ⟨"OCEAN", some "Oceanic"⟩]

/-- The `values` block of `enum terrain_alteration` from the specenum
definitions for `common/terrain.h` (style identifiers sorted). -/
def terrain_alteration_values : List SpecenumValue :=
  [⟨"CAN_BASE", some "CanBase"⟩,
   ⟨"CAN_IRRIGATE", some "CanIrrigate"⟩,
   ⟨"CAN_MINE", some "CanMine"⟩,
   ⟨"CAN_PLACE", some "CanPlace"⟩,
   ⟨"CAN_ROAD", some "CanRoad"⟩]

/-- The `values` block of `enum terrain_flag_id` from the specenum
definitions for `common/terrain.h` (style identifiers sorted, trailing
`USER_*` placeholders unnamed). -/
def terrain_flag_id_values : List SpecenumValue :=
  [⟨"CAN_HAVE_RIVER", some "CanHaveRiver"⟩,
   ⟨"ENTER_BORDERS", some "EnterBorders"⟩,
   ⟨"FRESHWATER", some "FreshWater"⟩,
   ⟨"FROZEN", some "Frozen"⟩,
   ⟨"NOT_GENERATED", some "NotGenerated"⟩,
   ⟨"NO_BARBS", some "NoBarbs"⟩,
   ⟨"NO_CITIES", some "NoCities"⟩,
   ⟨"NO_ZOC", some "NoZoc"⟩,
   ⟨"STARTER", some "Starter"⟩,
   ⟨"UNSAFE_COAST", some "UnsafeCoast"⟩,
   ⟨"USER_1", none⟩,
   ⟨"USER_2", none⟩,
   ⟨"USER_3", none⟩,
   ⟨"USER_4", none⟩,
   ⟨"USER_5", none⟩,
   ⟨"USER_6", none⟩,
   ⟨"USER_7", none⟩,
   ⟨"USER_8", none⟩,
   ⟨"USER_9", none⟩,
   ⟨"USER_LAST", none⟩]

/-- The `values` block of `enum mapgen_terrain_property` from the specenum
definitions for `common/terrain.h` (style identifiers sorted). -/
def mapgen_terrain_property_values : List SpecenumValue :=
  [⟨"COLD", some "cold"⟩,
   ⟨"DRY", some "dry"⟩,
   ⟨"FOLIAGE", some "foliage"⟩,
   ⟨"FROZEN", some "frozen"⟩,
   ⟨"GREEN", some "green"⟩,
   ⟨"MOUNTAINOUS", some "mountainous"⟩,
   ⟨"OCEAN_DEPTH", some "ocean_depth"⟩,
   ⟨"TEMPERATE", some "temperate"⟩,
   ⟨"TROPICAL", some "tropical"⟩,
   ⟨"WET", some "wet"⟩]

/-! ## string helpers (executable, used by the data claims) -/

/-- Boolean test that the first character list is an initial segment of the
second. -/
def listIsPrefix : List Char → List Char → Bool
  | [], _ => true
  | _ :: _, [] => false
  | a :: as, b :: bs => a == b && listIsPrefix as bs

/-- Boolean test that the first character list occurs contiguously inside
the second. -/
def listIsInfix (p : List Char) : List Char → Bool
  | [] => listIsPrefix p []
  | b :: bs => listIsPrefix p (b :: bs) || listIsInfix p bs

/-- Boolean substring test on strings. -/
def containsSubstr (pat s : String) : Bool :=
  listIsInfix pat.data s.data

/-- Strict lexicographic comparison of character lists by code point; for
the ASCII identifiers of the specenum tables this is strict ASCII order. -/
def lexLt : List Char → List Char → Bool
  | [], [] => false
  | [], _ :: _ => true
  | _ :: _, [] => false
  | a :: as, b :: bs => a < b || (a == b && lexLt as bs)

/-- Boolean test that a list of strings is in strictly ascending ASCII
order. -/
def sortedAsc : List String → Bool
  | [] => true
  | [_] => true
  | a :: b :: rest => lexLt a.data b.data && sortedAsc (b :: rest)

/-- The named identifiers of a specenum values block, with the `USER_*`
placeholders removed. -/
def nonUserIdentifiers (l : List SpecenumValue) : List String :=
  (l.map (fun v => v.identifier)).filter
    (fun s => !(listIsPrefix "USER_".data s.data))

/-! ## ai/tex/Makefile.am -/

/-- One automake library target: its name, the `_LTLIBRARIES` variable it
is listed in, its `_SOURCES`, and its `_LDFLAGS`. -/
structure LibraryTarget where
  name : String
  variable_kind : String
  sources : List String
  ldflags : List String
deriving DecidableEq

/-- The `da_sources` list of `ai/tex/Makefile.am`. -/
def da_sources : List String :=
  ["texaicity.c", "texaicity.h",
   "texaimsg.c", "texaimsg.h",
   "texaiplayer.c", "texaiplayer.h",
   "texaiworld.c", "texaiworld.h",
   "texai.c"]

/-- Embedding of the target wiring of `ai/tex/Makefile.am`: under
`AI_MOD_STATIC_TEX` the convenience library `libtexai.la` is built as
`noinst_LTLIBRARIES` from `da_sources`; otherwise the loadable module
`fc_ai_tex.la` is built as `aimodule_LTLIBRARIES` from `da_sources` with
`-module` in its LDFLAGS. -/
def tex_makefile_targets (ai_mod_static_tex : Bool) : List LibraryTarget :=
  if ai_mod_static_tex then
    [⟨"libtexai.la", "noinst_LTLIBRARIES", da_sources, []⟩]
  else
    [⟨"fc_ai_tex.la", "aimodule_LTLIBRARIES", da_sources, ["-module"]⟩]

/-! ## data/nation/mongol.ruleset -/

/-- One row of a nation ruleset `leaders` table. -/
structure Leader where
  name : String
  sex : String
deriving DecidableEq

/-- One row of a nation ruleset `ruler_titles` table. -/
structure RulerTitle where
  government : String
  male_title : String
  female_title : String
deriving DecidableEq

/-- The `leaders` table of `data/nation/mongol.ruleset`. -/
def mongol_leaders : List Leader :=
  [⟨"Chinggis", "Male"⟩,
   ⟨"Börte", "Female"⟩,
   ⟨"Ögedei", "Male"⟩,
   ⟨"Bat", "Male"⟩,
   ⟨"Tsagadai", "Male"⟩,
   ⟨"Tolui", "Male"⟩,
   ⟨"Tokhtamysh", "Male"⟩,
   ⟨"Sübeedei", "Male"⟩,
   ⟨"Dörgene", "Female"⟩,
   ⟨"Güyük", "Male"⟩,
   ⟨"Mönkh", "Male"⟩,
   ⟨"Khubilai", "Male"⟩,
   ⟨"Khülegü", "Male"⟩,
   ⟨"Mandukhai", "Female"⟩]

/-- The `ruler_titles` table of `data/nation/mongol.ruleset`. -/
def mongol_ruler_titles : List RulerTitle :=
  [⟨"Despotism", "%s Khan", "%s Khatan"⟩,
   ⟨"Monarchy", "%s Khagan", "?female:%s Khagan"⟩]

/-! ## Theorems -/

/-- C1: for a nonempty entry, when the history already holds
`MAX_CHATLINE_HISTORY` or more entries the oldest (tail) entry is removed
before the input is prepended, and from any history of length at most
`MAX_CHATLINE_HISTORY` the length after `inputline_return` is still at most
`MAX_CHATLINE_HISTORY`. -/
theorem inputline_return_caps_history (s : ChatState)
    (hne : s.entryText ≠ "")
    (hlen : s.history.length ≤ MAX_CHATLINE_HISTORY) :
    (MAX_CHATLINE_HISTORY ≤ s.history.length →
       (inputline_return s).history = s.entryText :: s.history.dropLast) ∧
    (inputline_return s).history.length ≤ MAX_CHATLINE_HISTORY := by
  have hmax : 1 ≤ MAX_CHATLINE_HISTORY := by decide
  unfold inputline_return
  by_cases hc : MAX_CHATLINE_HISTORY ≤ s.history.length
  · refine ⟨fun _ => by simp [hne, hc], ?_⟩
    simp [hne, hc, List.length_dropLast]
    omega
  · refine ⟨fun h => absurd h hc, ?_⟩
    simp [hne, hc]
    omega

/-- Witness for C1 at a full history of length `MAX_CHATLINE_HISTORY`. -/
theorem inputline_return_caps_history_witness :
    (inputline_return
        ⟨"hi", List.replicate MAX_CHATLINE_HISTORY "a", 3, []⟩).history.length
      ≤ MAX_CHATLINE_HISTORY :=
  (inputline_return_caps_history
      ⟨"hi", List.replicate MAX_CHATLINE_HISTORY "a", 3, []⟩
      (by decide) (by simp)).2

/-- C5: on an empty entry `inputline_return` sends nothing and leaves the
history and `history_pos` unchanged while still clearing the entry text,
and after every call (hence after every non-empty send) the entry text is
the empty string. -/
theorem inputline_return_empty_entry (s : ChatState) :
    (s.entryText = "" →
       (inputline_return s).sent = s.sent ∧
       (inputline_return s).history = s.history ∧
       (inputline_return s).historyPos = s.historyPos) ∧
    (inputline_return s).entryText = "" := by
  unfold inputline_return
  constructor
  · intro h
    simp [h]
  · by_cases h : s.entryText = "" <;> simp [h]

/-- Witness for C5 at a concrete state with an empty entry. -/
theorem inputline_return_empty_entry_witness :
    (inputline_return ⟨"", ["a"], 0, []⟩).history = ["a"] ∧
    (inputline_return ⟨"", ["a"], 0, []⟩).entryText = "" :=
  ⟨((inputline_return_empty_entry ⟨"", ["a"], 0, []⟩).1 rfl).2.1,
   (inputline_return_empty_entry ⟨"", ["a"], 0, []⟩).2⟩

/-- C2: for a text view whose parent is a scrolled window,
`scroll_if_necessary` scrolls to the mark iff
`(upper - page_size) - value < 10.0`; at a distance of `10.0` or more no
scroll happens. -/
theorem scroll_if_necessary_iff (vadj : Adjustment) (m : Mark) :
    (scroll_if_necessary (some ⟨some (Widget.scrolledWindow vadj)⟩)
        (some m) = true ↔
      vadj.upper - vadj.page_size - vadj.value < 10) ∧
    (10 ≤ vadj.upper - vadj.page_size - vadj.value →
      scroll_if_necessary (some ⟨some (Widget.scrolledWindow vadj)⟩)
        (some m) = false) := by
  constructor
  · simp [scroll_if_necessary]
  · intro h
    simp [scroll_if_necessary]
    linarith

/-- Witness for C2: a view 5 units from the bottom does scroll. -/
theorem scroll_if_necessary_iff_witness :
    scroll_if_necessary
      (some ⟨some (Widget.scrolledWindow ⟨75, 100, 20⟩)⟩) (some ()) = true :=
  (scroll_if_necessary_iff ⟨75, 100, 20⟩ ()).1.mpr (by norm_num)

/-- C7: `chatline_scroll_to_bottom` does nothing when `message_buffer` is
NULL, and `scroll_if_necessary` performs no scroll when its textview or
mark argument is NULL or when the parent of the textview is NULL or not a
scrolled window. -/
theorem degenerate_scroll_inputs_are_noops
    (mainA startA : Option TextView) (m : Mark) :
    chatline_scroll_to_bottom none mainA startA = [] ∧
    scroll_if_necessary none (some m) = false ∧
    (∀ tv : TextView, scroll_if_necessary (some tv) none = false) ∧
    scroll_if_necessary (some ⟨none⟩) (some m) = false ∧
    scroll_if_necessary (some ⟨some Widget.other⟩) (some m) = false := by
  refine ⟨rfl, rfl, fun tv => ?_, rfl, rfl⟩
  simp [scroll_if_necessary]

/-- C3: `real_append_output_window` inserts the strftime-formatted
timestamp between the leading newline and the message text exactly when
`show_chat_message_time` is set; otherwise the message follows the newline
with no timestamp. -/
theorem real_append_output_window_timestamp (buf astring : String)
    (h m s : Nat) :
    real_append_output_window buf astring true (format_timestamp h m s) =
      buf ++ "\n" ++ format_timestamp h m s ++ astring ∧
    real_append_output_window buf astring false (format_timestamp h m s) =
      buf ++ "\n" ++ astring := by
  constructor <;> simp [real_append_output_window]

/-- C4: `real_append_output_window` only appends: the new buffer is the old
buffer followed by a newline, the optional timestamp and the given string
with no trailing newline, so every previously stored character is unchanged
and in its original order (the old contents are a prefix of the new). -/
theorem real_append_output_window_append_only (buf astring ts : String)
    (b : Bool) :
    real_append_output_window buf astring b ts =
      buf ++ ("\n" ++ (if b then ts else "") ++ astring) ∧
    buf.data <+: (real_append_output_window buf astring b ts).data := by
  have h : real_append_output_window buf astring b ts =
      buf ++ ("\n" ++ (if b then ts else "") ++ astring) := by
    cases b <;> simp [real_append_output_window, String.append_assoc]
  refine ⟨h, ?_⟩
  rw [h]
  simp only [String.data_append]
  exact List.prefix_append _ _

/-- C6: the specenum tables are fixed data: `terrain_class` has exactly the
two values LAND (Land) and OCEAN (Oceanic) in that order, and
`impr_flag_id` has exactly thirteen flags, the five named ones followed by
USER_FLAG_1 through USER_FLAG_8, in that order. -/
theorem specenum_tables_fixed :
    terrain_class_values =
      [⟨"LAND", some "Land"⟩, ⟨"OCEAN", some "Oceanic"⟩] ∧
    impr_flag_id_values.length = 13 ∧
    impr_flag_id_values.map (fun v => v.identifier) =
      ["VISIBLE_BY_OTHERS", "SAVE_SMALL_WONDER", "GOLD", "DISASTER_PROOF",
       "INDESTRUCTIBLE", "USER_FLAG_1", "USER_FLAG_2", "USER_FLAG_3",
       "USER_FLAG_4", "USER_FLAG_5", "USER_FLAG_6", "USER_FLAG_7",
       "USER_FLAG_8"] := by
  refine ⟨rfl, rfl, rfl⟩

/-- C8: in each specenum block declared with style identifiers sorted, the
value identifiers, excluding the trailing USER placeholders of
`terrain_flag_id`, are in strictly ascending ASCII order. -/
theorem sorted_style_blocks_are_sorted :
    sortedAsc (nonUserIdentifiers terrain_class_values) = true ∧
    sortedAsc (nonUserIdentifiers terrain_alteration_values) = true ∧
    sortedAsc (nonUserIdentifiers terrain_flag_id_values) = true ∧
    sortedAsc (nonUserIdentifiers mapgen_terrain_property_values) = true := by
  refine ⟨by decide, by decide, by decide, by decide⟩

/-- C9: each branch of the `AI_MOD_STATIC_TEX` conditional in
`ai/tex/Makefile.am` defines exactly one library target: the static branch
the convenience library `libtexai.la` (noinst), the other branch the
loadable module `fc_ai_tex.la` with LDFLAGS `-module`; both compile the
identical nine-entry `da_sources` list. -/
theorem tex_makefile_single_target (b : Bool) :
    (tex_makefile_targets b).length = 1 ∧
    tex_makefile_targets true =
      [⟨"libtexai.la", "noinst_LTLIBRARIES", da_sources, []⟩] ∧
    tex_makefile_targets false =
      [⟨"fc_ai_tex.la", "aimodule_LTLIBRARIES", da_sources, ["-module"]⟩] ∧
    da_sources.length = 9 ∧
    (∀ t ∈ tex_makefile_targets b, t.sources = da_sources) := by
  cases b <;>
    exact ⟨rfl, rfl, rfl, rfl, by intro t ht; simp [tex_makefile_targets] at ht; simp [ht]⟩

/-- Witness for C9 at the static branch target. -/
theorem tex_makefile_single_target_witness :
    (⟨"libtexai.la", "noinst_LTLIBRARIES", da_sources, []⟩ :
      LibraryTarget).sources = da_sources :=
  (tex_makefile_single_target true).2.2.2.2 _ (by simp [tex_makefile_targets])

/-- C10: every one of the fourteen rows of the Mongol `leaders` table
carries a sex of Male or Female, and every `ruler_titles` row supplies both
a male and a female title containing the `%s` substitution. -/
theorem mongol_ruleset_data :
    mongol_leaders.length = 14 ∧
    mongol_leaders.all
      (fun l => l.sex == "Male" || l.sex == "Female") = true ∧
    mongol_ruler_titles.all
      (fun r => containsSubstr "%s" r.male_title &&
                containsSubstr "%s" r.female_title) = true := by
  refine ⟨rfl, by decide, by decide⟩

end Freeciv
